import Mathlib

/-!
Shallow embedding of the GameFi ledger contract
(`smart_contracts/hello_world/contract.py`, class `GameFiDApp`).

Modelling conventions:
* AVM `uint64` values are embedded as unbounded integers; balance fields use
  `Int` so that non-negativity is a provable invariant rather than a typing
  artifact.  Amount arguments are `Nat` (a `uint64` input is never negative).
* AVM arithmetic panics on `uint64` underflow and on division by zero; both
  are modelled as failure (`none` / `Except.error`), which aborts and rolls
  back the whole operation, exactly as a failed Algorand transaction does.
* Box storage is modelled as a total map `Address → PlayerState`; a missing
  box reads as the all-zero record, matching `get_player_state`.
* Inner transactions (payments, asset transfers) are external effects; where
  a claim depends on them, the transferred amount is returned as data.
-/

namespace GameFi

/-- Account identifiers are opaque; we model them as naturals. -/
abbrev Address := Nat

/-- `PlayerState` struct stored in a player's box (contract.py lines 25-35). -/
structure PlayerState where
  algo_balance : Int
  mint_balance : Int
  spot_balance : Int
  staked_mint : Int
  staked_spot : Int
  nfts_owned : Int
  last_stake_timestamp : Nat
  deriving DecidableEq

/-- Global state of the `GameFiDApp` class (contract.py lines 40-66). -/
structure GlobalConfig where
  oracle_address : Address
  mint_token_asa : Nat
  spot_token_asa : Nat
  stake_reward_rate : Nat
  spot_price_algo : Nat
  mint_price_algo : Nat
  tinyman_validator_app_id : Nat
  mint_algo_pool_app_id : Nat
  spot_mint_pool_app_id : Nat
  game_fees_treasury_algo : Int
  game_fees_treasury_mint : Int
  game_fees_treasury_spot : Int
  deriving DecidableEq

/-- The box store: every address maps to a record, absent boxes read as the
all-zero default (`get_player_state`, lines 152-158). -/
abbrev Store := Address → PlayerState

/-- The all-zero default record `PlayerState(0, 0, 0, 0, 0, 0, 0)`. -/
def zeroPlayer : PlayerState :=
  { algo_balance := 0, mint_balance := 0, spot_balance := 0,
    staked_mint := 0, staked_spot := 0, nfts_owned := 0,
    last_stake_timestamp := 0 }

/-- A store with no boxes: every address reads the default record. -/
def zeroStore : Store := fun _ => zeroPlayer

/-- `op.Box.put(addr, state)` (overwrite one box). -/
def boxPut (s : Store) (a : Address) (st : PlayerState) : Store :=
  fun b => if b = a then st else s b

/-- `_update_staking_rewards` (lines 274-294): computes
`time_staked = now - last_stake_timestamp` (uint64 subtraction, panics on
underflow), and if `staked_mint > 0 and time_staked > 0` adds
`staked_mint * stake_reward_rate * time_staked // 1_000_000` to the returned
mint balance.  Returns the new total mint balance; it also submits an external
asset transfer of the reward, and it never writes `last_stake_timestamp`. -/
def updateStakingRewards (cfg : GlobalConfig) (now : Nat) (st : PlayerState) :
    Option Int :=
  if now < st.last_stake_timestamp then
    none
  else
    let time_staked : Nat := now - st.last_stake_timestamp
    if 0 < st.staked_mint ∧ 0 < time_staked then
      let rewards : Int :=
        st.staked_mint * (cfg.stake_reward_rate : Int) * (time_staked : Int) / 1000000
      some (st.mint_balance + rewards)
    else
      some st.mint_balance

/-- The accrual step as `stake_mint_tokens` / `unstake_mint_tokens` apply it
(lines 306, 324): `player_state.mint_balance = self._update_staking_rewards(...)`,
all other fields untouched. -/
def accrue (cfg : GlobalConfig) (now : Nat) (st : PlayerState) :
    Option PlayerState :=
  (updateStakingRewards cfg now st).map fun b => { st with mint_balance := b }

/-- `deposit_algo` (lines 161-174): credits the attached payment amount to the
sender's `algo_balance`.  The payment-shape assertions concern the grouped
transaction, not ledger state. -/
def depositAlgo (store : Store) (sender : Address) (amount : Nat) :
    Option Store :=
  let st := store sender
  some (boxPut store sender { st with algo_balance := st.algo_balance + amount })

/-- `deposit_asa` (lines 177-194): credits `mint_balance` if `token_id`
equals the stored MINT asa id, else `spot_balance` if it equals the SPOT asa
id, else reverts ("Invalid ASA for deposit."). -/
def depositAsa (cfg : GlobalConfig) (store : Store) (sender : Address)
    (tokenId amount : Nat) : Option Store :=
  let st := store sender
  if tokenId = cfg.mint_token_asa then
    some (boxPut store sender { st with mint_balance := st.mint_balance + amount })
  else if tokenId = cfg.spot_token_asa then
    some (boxPut store sender { st with spot_balance := st.spot_balance + amount })
  else
    none

/-- `withdraw_algo` (lines 197-211): asserts `algo_balance >= amount`, sends
an external payment, then debits `algo_balance`. -/
def withdrawAlgo (store : Store) (sender : Address) (amount : Nat) :
    Option Store :=
  let st := store sender
  if (amount : Int) ≤ st.algo_balance then
    some (boxPut store sender { st with algo_balance := st.algo_balance - amount })
  else
    none

/-- Successful result of `resolve_game`: the new global state and store, plus
the amounts moved by the two external inner transactions. -/
structure ResolveOutcome where
  cfg : GlobalConfig
  store : Store
  winnerAlgoPayout : Nat
  loserMintTransfer : Nat

/-- `resolve_game` (lines 240-269): oracle-only.  (1) external ALGO payment of
`prize_algo` to `winner`; (2) `spot_reward = prize_algo * 1000 // spot_price`
credited to the winner's stored `spot_balance` and the winner box written;
(3) `mint_reward = prize_algo * 1000 // mint_price` sent to `loser` by an
external asset transfer — the loser's box is not read or written;
(4) treasury `game_fees_treasury_algo += prize_algo // 10`.  The two uint64
divisions panic when the stored price is zero. -/
def resolveGame (cfg : GlobalConfig) (store : Store)
    (sender winner loser : Address) (prize_algo : Nat) :
    Option ResolveOutcome :=
  if sender = cfg.oracle_address then
    if cfg.spot_price_algo ≠ 0 then
      let spot_reward : Nat := prize_algo * 1000 / cfg.spot_price_algo
      let wst := store winner
      let store1 := boxPut store winner
        { wst with spot_balance := wst.spot_balance + spot_reward }
      if cfg.mint_price_algo ≠ 0 then
        let mint_reward : Nat := prize_algo * 1000 / cfg.mint_price_algo
        some { cfg := { cfg with game_fees_treasury_algo :=
                          cfg.game_fees_treasury_algo + prize_algo / 10 },
               store := store1,
               winnerAlgoPayout := prize_algo,
               loserMintTransfer := mint_reward }
      else none
    else none
  else none

/-- `stake_mint_tokens` (lines 297-312): asserts `mint_balance >= amount`,
settles accrual into `mint_balance`, then moves `amount` from `mint_balance`
to `staked_mint` and stamps `last_stake_timestamp = now`. -/
def stakeMintTokens (cfg : GlobalConfig) (store : Store) (sender : Address)
    (amount : Nat) (now : Nat) : Option Store :=
  let st := store sender
  if (amount : Int) ≤ st.mint_balance then
    (updateStakingRewards cfg now st).map fun newMint =>
      boxPut store sender
        { st with mint_balance := newMint - amount,
                  staked_mint := st.staked_mint + amount,
                  last_stake_timestamp := now }
  else
    none

/-- `unstake_mint_tokens` (lines 315-330): asserts `staked_mint >= amount`,
settles accrual into `mint_balance`, then moves `amount` from `staked_mint`
back to `mint_balance` and stamps `last_stake_timestamp = now`. -/
def unstakeMintTokens (cfg : GlobalConfig) (store : Store) (sender : Address)
    (amount : Nat) (now : Nat) : Option Store :=
  let st := store sender
  if (amount : Int) ≤ st.staked_mint then
    (updateStakingRewards cfg now st).map fun newMint =>
      boxPut store sender
        { st with mint_balance := newMint + amount,
                  staked_mint := st.staked_mint - amount,
                  last_stake_timestamp := now }
  else
    none

/-- `award_achievement_nft` (lines 335-368): oracle-only; mints an NFT
externally and increments the player's `nfts_owned` counter. -/
def awardAchievementNft (cfg : GlobalConfig) (store : Store)
    (sender player : Address) : Option Store :=
  if sender = cfg.oracle_address then
    let st := store player
    some (boxPut store player { st with nfts_owned := st.nfts_owned + 1 })
  else
    none

/-- Failure kinds of `_simulate_swap`, one per abort site in the code. -/
inductive SwapErr where
  /-- `op.assert_transaction(balance >= amount_in)` failed at the deduction. -/
  | insufficientBalance
  /-- `op.revert("Invalid input token for simulated swap.")` -/
  | invalidInputToken
  /-- `op.revert("Unsupported simulated swap pair.")` -/
  | unsupportedPair
  /-- `op.revert("Invalid output token for simulated swap.")` -/
  | invalidOutputToken
  /-- uint64 division by a zero stored price panics. -/
  | divisionByZero
  deriving DecidableEq

/-- `_simulate_swap` (lines 430-464), in source order: first resolve
`token_in` and deduct `amount_in` (asserting sufficiency), then resolve
`token_out`, check the pair, credit `amount_out`, and write the box once. -/
def simulateSwap (cfg : GlobalConfig) (store : Store) (player : Address)
    (token_in token_out amount_in : Nat) : Except SwapErr Store :=
  let st := store player
  let deducted : Except SwapErr PlayerState :=
    if token_in = cfg.mint_token_asa then
      if (amount_in : Int) ≤ st.mint_balance then
        Except.ok { st with mint_balance := st.mint_balance - amount_in }
      else Except.error SwapErr.insufficientBalance
    else if token_in = cfg.spot_token_asa then
      if (amount_in : Int) ≤ st.spot_balance then
        Except.ok { st with spot_balance := st.spot_balance - amount_in }
      else Except.error SwapErr.insufficientBalance
    else Except.error SwapErr.invalidInputToken
  deducted.bind fun st1 =>
    let credited : Except SwapErr PlayerState :=
      if token_out = cfg.mint_token_asa then
        if token_in = cfg.spot_token_asa then
          if cfg.mint_price_algo ≠ 0 then
            let amount_out : Nat :=
              amount_in * cfg.spot_price_algo / cfg.mint_price_algo
            Except.ok { st1 with mint_balance := st1.mint_balance + amount_out }
          else Except.error SwapErr.divisionByZero
        else Except.error SwapErr.unsupportedPair
      else if token_out = cfg.spot_token_asa then
        if token_in = cfg.mint_token_asa then
          if cfg.spot_price_algo ≠ 0 then
            let amount_out : Nat :=
              amount_in * cfg.mint_price_algo / cfg.spot_price_algo
            Except.ok { st1 with spot_balance := st1.spot_balance + amount_out }
          else Except.error SwapErr.divisionByZero
        else Except.error SwapErr.unsupportedPair
      else Except.error SwapErr.invalidOutputToken
    credited.map fun st2 => boxPut store player st2

/-- Step 1 of `_tinyman_swap_logic` (lines 386-395): resolve `token_in`,
assert sufficiency, and deduct `amount_in` from the player's record. -/
def tinymanDeducted (cfg : GlobalConfig) (st : PlayerState)
    (token_in amount_in : Nat) : Option PlayerState :=
  if token_in = cfg.mint_token_asa then
    if (amount_in : Int) ≤ st.mint_balance then
      some { st with mint_balance := st.mint_balance - amount_in }
    else none
  else if token_in = cfg.spot_token_asa then
    if (amount_in : Int) ≤ st.spot_balance then
      some { st with spot_balance := st.spot_balance - amount_in }
    else none
  else none

/-- `_tinyman_swap_logic` (lines 373-426): deducts the input and writes the
player's box (line 397), submits the pool transfer and application call as
inner transactions, then unconditionally reverts (line 426) — so the whole
operation fails and the intermediate box write is rolled back. -/
def tinymanSwapLogic (cfg : GlobalConfig) (store : Store) (player : Address)
    (token_in token_out amount_in : Nat) : Option Store :=
  match tinymanDeducted cfg (store player) token_in amount_in with
  | none => none
  | some st1 =>
      let _intermediate := boxPut store player st1
      none

/-- `swap_tokens` (lines 467-474): dispatches to the Tinyman path or the
simulated fallback. -/
def swapTokens (cfg : GlobalConfig) (store : Store) (sender : Address)
    (token_in token_out amount_in : Nat) (use_tinyman : Bool) : Option Store :=
  if use_tinyman then
    tinymanSwapLogic cfg store sender token_in token_out amount_in
  else
    (simulateSwap cfg store sender token_in token_out amount_in).toOption

/-- Commit semantics of one transaction: a failed operation rolls back to the
pre-call store. -/
def runOp (result : Option Store) (store : Store) : Store :=
  result.getD store

/-- The abort sites of `_simulate_swap` that the spec's `UnsupportedPair`
failure kind covers: a token resolving to neither configured asset, or a
resolved but unsupported direction.  The balance assertion
(`insufficientBalance`) and a zero-price panic are not of this kind. -/
def isUnsupportedPairErr : SwapErr → Bool
  | SwapErr.invalidInputToken => true
  | SwapErr.unsupportedPair => true
  | SwapErr.invalidOutputToken => true
  | _ => false

/-- Global state right after `app_create` (lines 70-96) with oracle address 0
and all Tinyman ids 0: prices 1000 and 10000, treasuries 0, reward rate 1,
and both asa ids still at their default 0. -/
def initialConfig : GlobalConfig :=
  { oracle_address := 0, mint_token_asa := 0, spot_token_asa := 0,
    stake_reward_rate := 1, spot_price_algo := 1000, mint_price_algo := 10000,
    tinyman_validator_app_id := 0, mint_algo_pool_app_id := 0,
    spot_mint_pool_app_id := 0, game_fees_treasury_algo := 0,
    game_fees_treasury_mint := 0, game_fees_treasury_spot := 0 }

/-- `initialConfig` after the two token-creation calls assigned asa ids 7
(MINT) and 8 (SPOT). -/
def demoConfig : GlobalConfig :=
  { initialConfig with mint_token_asa := 7, spot_token_asa := 8 }

/-- `demoConfig` with the MINT reference price set to 1000. -/
def mintPriceConfig : GlobalConfig :=
  { demoConfig with mint_price_algo := 1000 }

end GameFi

namespace GameFi

/-- Reading back the box just written returns the written record. -/
lemma boxPut_self (s : Store) (a : Address) (st : PlayerState) :
    boxPut s a st a = st := by
  simp [boxPut]

/-- A record whose stamp equals the accrual time is a fixed point of the
accrual step (`time_staked` is 0, so no reward branch is taken). -/
lemma accrue_fixed (cfg : GlobalConfig) (now : Nat) (st : PlayerState)
    (h : st.last_stake_timestamp = now) : accrue cfg now st = some st := by
  simp only [accrue, updateStakingRewards]
  rw [if_neg (by omega : ¬ now < st.last_stake_timestamp),
    if_neg (by omega :
      ¬ (0 < st.staked_mint ∧ 0 < now - st.last_stake_timestamp))]
  rfl

/-- C10: when the MINT asset has not been created yet (the stored MINT asa id
still holds its default value 0), `deposit_asa` with `token_id = 0` matches
the MINT branch instead of reverting, so the deposited amount is credited to
the player's `mint_balance`. -/
theorem c10_deposit_asa_unconfigured_zero (cfg : GlobalConfig) (store : Store)
    (sender : Address) (amount : Nat) (h : cfg.mint_token_asa = 0) :
    depositAsa cfg store sender 0 amount =
      some (boxPut store sender
        { store sender with
            mint_balance := (store sender).mint_balance + amount }) := by
  simp [depositAsa, h]

/-- C10 witness: depositing 5 units of "token 0" on the fresh configuration
credits the sender's MINT balance. -/
theorem c10_witness :
    depositAsa initialConfig zeroStore 1 0 5 =
      some (boxPut zeroStore 1
        { zeroStore 1 with
            mint_balance := (zeroStore 1).mint_balance + 5 }) :=
  c10_deposit_asa_unconfigured_zero initialConfig zeroStore 1 5 rfl

/-- C8: the Tinyman swap path of `swap_tokens` fails for every input, and
under commit semantics the store after the failed call equals its pre-call
value — even though, on the path where the deduction succeeds, the function
writes the deducted record back (`op.Box.put`, line 397) before its final
unconditional revert. -/
theorem c8_tinyman_always_rolls_back (cfg : GlobalConfig) (store : Store)
    (sender : Address) (token_in token_out amount_in : Nat) :
    swapTokens cfg store sender token_in token_out amount_in true = none ∧
    runOp (swapTokens cfg store sender token_in token_out amount_in true)
      store = store := by
  have h : swapTokens cfg store sender token_in token_out amount_in true = none := by
    unfold swapTokens tinymanSwapLogic
    cases tinymanDeducted cfg (store sender) token_in amount_in <;> rfl
  exact ⟨h, by rw [runOp, h]; rfl⟩

/-- C5: after an enclosing stake or unstake at time `now` has stamped
`last_stake_timestamp = now`, running the accrual again with the same `now`
yields zero additional reward: the stored record is unchanged. -/
theorem c5_accrual_idempotent (cfg : GlobalConfig) (store : Store)
    (sender : Address) (amount now : Nat) (store1 : Store) :
    (stakeMintTokens cfg store sender amount now = some store1 →
      accrue cfg now (store1 sender) = some (store1 sender)) ∧
    (unstakeMintTokens cfg store sender amount now = some store1 →
      accrue cfg now (store1 sender) = some (store1 sender)) := by
  constructor <;> intro h
  · simp only [stakeMintTokens] at h
    split at h
    · obtain ⟨m, -, rfl⟩ := Option.map_eq_some'.mp h
      exact accrue_fixed _ _ _ (by simp [boxPut])
    · exact absurd h (by simp)
  · simp only [unstakeMintTokens] at h
    split at h
    · obtain ⟨m, -, rfl⟩ := Option.map_eq_some'.mp h
      exact accrue_fixed _ _ _ (by simp [boxPut])
    · exact absurd h (by simp)

/-- C5 witness: stake 0 at time 5 on a fresh account, then re-run accrual at
time 5 on the stored record: it is unchanged. -/
theorem c5_witness :
    accrue initialConfig 5
        (boxPut zeroStore 1 { zeroPlayer with last_stake_timestamp := 5 } 1) =
      some (boxPut zeroStore 1 { zeroPlayer with last_stake_timestamp := 5 } 1) :=
  (c5_accrual_idempotent initialConfig zeroStore 1 0 5
    (boxPut zeroStore 1 { zeroPlayer with last_stake_timestamp := 5 })).1 rfl

/-- C2: the accrual step applied at the start of stake/unstake adds exactly
`staked_mint * stake_reward_rate * (now - last_stake_timestamp) / 1_000_000`
to the MINT balance when `staked_mint > 0` and `now > last_stake_timestamp`;
it never changes `last_stake_timestamp`; when `staked_mint = 0` or
`now ≤ last_stake_timestamp` it leaves the record unchanged; and the spec
scenario (deposit 1000 MINT, stake 600 at time 0, unstake 100 at time
1_000_000 with rate 1) ends with `mint_balance = 1100`, `staked_mint = 500`. -/
theorem c2_accrual_formula (cfg : GlobalConfig) (st : PlayerState) (now : Nat) :
    (0 < st.staked_mint → st.last_stake_timestamp < now →
      accrue cfg now st = some { st with mint_balance :=
        st.mint_balance +
          st.staked_mint * (cfg.stake_reward_rate : Int) *
            ((now - st.last_stake_timestamp : Nat) : Int) / 1000000 }) ∧
    (∀ st1, accrue cfg now st = some st1 →
      st1.last_stake_timestamp = st.last_stake_timestamp) ∧
    (st.staked_mint = 0 ∨ now ≤ st.last_stake_timestamp →
      ∀ st1, accrue cfg now st = some st1 → st1 = st) ∧
    ((depositAsa demoConfig zeroStore 1 7 1000).bind fun s1 =>
      (stakeMintTokens demoConfig s1 1 600 0).bind fun s2 =>
        (unstakeMintTokens demoConfig s2 1 100 1000000).map fun s3 =>
          ((s3 1).mint_balance, (s3 1).staked_mint)) = some (1100, 500) := by
  refine ⟨fun h1 h2 => ?_, fun st1 h => ?_, fun h0 st1 h => ?_, by decide⟩
  · simp only [accrue, updateStakingRewards]
    rw [if_neg (by omega),
      if_pos (⟨h1, by omega⟩ :
        0 < st.staked_mint ∧ 0 < now - st.last_stake_timestamp)]
    rfl
  · obtain ⟨m, -, rfl⟩ := Option.map_eq_some'.mp h
    rfl
  · simp only [accrue, updateStakingRewards] at h
    by_cases hlt : now < st.last_stake_timestamp
    · rw [if_pos hlt] at h
      simp at h
    · rw [if_neg hlt, if_neg (by omega :
        ¬ (0 < st.staked_mint ∧ 0 < now - st.last_stake_timestamp))] at h
      rw [Option.map_some'] at h
      injection h with h1
      rw [← h1]

/-- C2 witness: the accrual formula at the scenario state (400 MINT liquid,
600 staked since time 0) and time 1_000_000. -/
theorem c2_witness :
    accrue demoConfig 1000000
        { zeroPlayer with mint_balance := 400, staked_mint := 600 } =
      some { { zeroPlayer with mint_balance := 400, staked_mint := 600 } with
        mint_balance :=
          ({ zeroPlayer with mint_balance := 400, staked_mint := 600 } :
              PlayerState).mint_balance +
            ({ zeroPlayer with mint_balance := 400, staked_mint := 600 } :
                PlayerState).staked_mint *
              (demoConfig.stake_reward_rate : Int) *
              ((1000000 -
                ({ zeroPlayer with mint_balance := 400, staked_mint := 600 } :
                    PlayerState).last_stake_timestamp : Nat) : Int) / 1000000 } :=
  (c2_accrual_formula demoConfig
    { zeroPlayer with mint_balance := 400, staked_mint := 600 } 1000000).1
    (by decide) (by decide)

/-- C4: when the two configured asa ids are distinct and both reference
prices are positive, a simulated swap between them with sufficient input
balance succeeds, debits the input balance by exactly `amount_in`, credits
the output balance by exactly `amount_in * price_in / price_out` (floor), and
performs a single box write changing no other field of the player record.
Both directions are stated. -/
theorem c4_simulate_swap_exact (cfg : GlobalConfig) (store : Store)
    (player : Address) (amount_in : Nat)
    (hne : cfg.mint_token_asa ≠ cfg.spot_token_asa)
    (hmp : 0 < cfg.mint_price_algo) (hsp : 0 < cfg.spot_price_algo) :
    ((amount_in : Int) ≤ (store player).mint_balance →
      simulateSwap cfg store player cfg.mint_token_asa cfg.spot_token_asa
          amount_in =
        Except.ok (boxPut store player
          { store player with
              mint_balance := (store player).mint_balance - amount_in,
              spot_balance := (store player).spot_balance +
                (amount_in * cfg.mint_price_algo / cfg.spot_price_algo : Nat) })) ∧
    ((amount_in : Int) ≤ (store player).spot_balance →
      simulateSwap cfg store player cfg.spot_token_asa cfg.mint_token_asa
          amount_in =
        Except.ok (boxPut store player
          { store player with
              spot_balance := (store player).spot_balance - amount_in,
              mint_balance := (store player).mint_balance +
                (amount_in * cfg.spot_price_algo / cfg.mint_price_algo : Nat) })) := by
  constructor <;> intro hbal <;>
    simp [simulateSwap, hne, Ne.symm hne, hmp.ne', hsp.ne', hbal,
      Except.bind, Except.map]

/-- C4 witness: swapping 2 MINT (price 10000) into SPOT (price 1000) yields
20 SPOT on a concrete account holding 5 MINT and 3 SPOT. -/
theorem c4_witness :
    simulateSwap demoConfig
        (boxPut zeroStore 1
          { zeroPlayer with mint_balance := 5, spot_balance := 3 })
        1 demoConfig.mint_token_asa demoConfig.spot_token_asa 2 =
      Except.ok (boxPut
        (boxPut zeroStore 1
          { zeroPlayer with mint_balance := 5, spot_balance := 3 }) 1
        { boxPut zeroStore 1
            { zeroPlayer with mint_balance := 5, spot_balance := 3 } 1 with
            mint_balance :=
              (boxPut zeroStore 1
                { zeroPlayer with mint_balance := 5, spot_balance := 3 } 1).mint_balance - 2,
            spot_balance :=
              (boxPut zeroStore 1
                { zeroPlayer with mint_balance := 5, spot_balance := 3 } 1).spot_balance +
                (2 * demoConfig.mint_price_algo / demoConfig.spot_price_algo : Nat) }) :=
  (c4_simulate_swap_exact demoConfig
    (boxPut zeroStore 1 { zeroPlayer with mint_balance := 5, spot_balance := 3 })
    1 2 (by decide) (by decide) (by decide)).1 (by decide)

/-- C7: a call by the oracle with positive stored prices succeeds; it credits
the winner's stored `spot_balance` by exactly `prize * 1000 / spot_price`
(floor) and grows the ALGO treasury accumulator by exactly `prize / 10`
(floor); the outcome record also carries the external prize payout. -/
theorem c7_resolve_game_winner_treasury (cfg : GlobalConfig) (store : Store)
    (winner loser : Address) (prize : Nat)
    (hsp : cfg.spot_price_algo ≠ 0) (hmp : cfg.mint_price_algo ≠ 0) :
    resolveGame cfg store cfg.oracle_address winner loser prize =
      some { cfg := { cfg with game_fees_treasury_algo :=
                        cfg.game_fees_treasury_algo + prize / 10 },
             store := boxPut store winner
               { store winner with spot_balance :=
                   (store winner).spot_balance +
                     (prize * 1000 / cfg.spot_price_algo : Nat) },
             winnerAlgoPayout := prize,
             loserMintTransfer := prize * 1000 / cfg.mint_price_algo } := by
  simp [resolveGame, hsp, hmp]

/-- C7 witness: the spec scenario — `prize = 1000` at `spot_price = 1000`
credits the winner 1000 SPOT and grows the treasury by 100. -/
theorem c7_witness :
    ((resolveGame initialConfig zeroStore initialConfig.oracle_address 1 2 1000).map
      fun o => ((o.store 1).spot_balance, o.cfg.game_fees_treasury_algo)) =
      some (1000, 100) := by
  rw [c7_resolve_game_winner_treasury initialConfig zeroStore 1 2 1000
    (by decide) (by decide)]
  decide

/-- C1 counterexample: with a MINT price of 1000 and `prize = 1000`, the
claim predicts the loser's stored `mint_balance` rises from 0 to 1000; the
code leaves it at 0 (the consolation MINT is sent by an external asset
transfer and the loser's box is never written). -/
theorem c1_counterexample :
    ((resolveGame mintPriceConfig zeroStore mintPriceConfig.oracle_address
        1 2 1000).map fun o => (o.store 2).mint_balance) = some 0 ∧
    (zeroStore 2).mint_balance +
      ((1000 * 1000 / mintPriceConfig.mint_price_algo : Nat) : Int) = 1000 ∧
    (0 : Int) ≠ 1000 := by
  decide

/-- C1 (amended): a successful `resolve_game` leaves the loser's stored
ledger `mint_balance` unchanged; the amount `prize * 1000 / mint_price`
(floor) is instead moved to the loser by an external asset transfer, recorded
in the outcome as `loserMintTransfer`. -/
theorem c1_loser_mint_external (cfg : GlobalConfig) (store : Store)
    (winner loser : Address) (prize : Nat)
    (hsp : cfg.spot_price_algo ≠ 0) (hmp : cfg.mint_price_algo ≠ 0) :
    ((resolveGame cfg store cfg.oracle_address winner loser prize).map
      fun o => ((o.store loser).mint_balance, o.loserMintTransfer)) =
      some ((store loser).mint_balance, prize * 1000 / cfg.mint_price_algo) := by
  by_cases hlw : loser = winner
  · subst hlw
    simp [resolveGame, hsp, hmp, boxPut]
  · simp [resolveGame, hsp, hmp, boxPut, hlw]

/-- C1 amended witness: at the counterexample input the loser's stored MINT
balance stays 0 while 1000 MINT leave by the external transfer. -/
theorem c1_amended_witness :
    ((resolveGame mintPriceConfig zeroStore mintPriceConfig.oracle_address
        3 4 1000).map fun o => ((o.store 4).mint_balance, o.loserMintTransfer)) =
      some ((zeroStore 4).mint_balance,
        1000 * 1000 / mintPriceConfig.mint_price_algo) :=
  c1_loser_mint_external mintPriceConfig zeroStore 3 4 1000
    (by decide) (by decide)

/-- C6 counterexample: an account that already has 5 MINT staked (10 MINT
liquid, stamp 0) stakes 3 and immediately unstakes 3 at time 0; its
`staked_mint` ends at 5, not 0 as the claim states for every player state. -/
theorem c6_counterexample :
    ((stakeMintTokens demoConfig
        (boxPut zeroStore 1
          { zeroPlayer with mint_balance := 10, staked_mint := 5 }) 1 3 0).bind
      fun s1 => unstakeMintTokens demoConfig s1 1 3 0).map
        (fun s2 => (s2 1).staked_mint) = some 5 ∧ (5 : Int) ≠ 0 := by
  decide

/-- C6 (amended): for a player with no MINT currently staked (and a stamp not
in the future), staking `amount` and immediately unstaking `amount` at the
same time `now` returns `mint_balance` to its pre-stake value and leaves
`staked_mint` at 0. -/
theorem c6_round_trip_unstaked (cfg : GlobalConfig) (store : Store)
    (sender : Address) (amount now : Nat)
    (h0 : (store sender).staked_mint = 0)
    (hts : (store sender).last_stake_timestamp ≤ now)
    (hb : (amount : Int) ≤ (store sender).mint_balance) :
    ((stakeMintTokens cfg store sender amount now).bind fun s1 =>
      unstakeMintTokens cfg s1 sender amount now).map
        (fun s2 => ((s2 sender).mint_balance, (s2 sender).staked_mint)) =
      some ((store sender).mint_balance, 0) := by
  have hstake : stakeMintTokens cfg store sender amount now =
      some (boxPut store sender
        { store sender with
            mint_balance := (store sender).mint_balance - amount,
            staked_mint := (store sender).staked_mint + amount,
            last_stake_timestamp := now }) := by
    simp only [stakeMintTokens, updateStakingRewards]
    rw [if_pos hb, if_neg (by omega),
      if_neg (by omega :
        ¬ (0 < (store sender).staked_mint ∧
            0 < now - (store sender).last_stake_timestamp))]
    rfl
  rw [hstake]
  simp only [Option.some_bind]
  have hunstake : unstakeMintTokens cfg
      (boxPut store sender
        { store sender with
            mint_balance := (store sender).mint_balance - amount,
            staked_mint := (store sender).staked_mint + amount,
            last_stake_timestamp := now }) sender amount now =
      some (boxPut
        (boxPut store sender
          { store sender with
              mint_balance := (store sender).mint_balance - amount,
              staked_mint := (store sender).staked_mint + amount,
              last_stake_timestamp := now }) sender
        { store sender with
            mint_balance := (store sender).mint_balance - amount + amount,
            staked_mint := (store sender).staked_mint + amount - amount,
            last_stake_timestamp := now }) := by
    simp only [unstakeMintTokens, updateStakingRewards, boxPut_self]
    rw [if_pos (by omega :
        (amount : Int) ≤ (store sender).staked_mint + amount),
      if_neg (by omega : ¬ now < now),
      if_neg (by omega :
        ¬ (0 < (store sender).staked_mint + (amount : Int) ∧ 0 < now - now))]
    rfl
  rw [hunstake]
  simp only [Option.map_some', boxPut_self]
  refine congrArg some (Prod.ext ?_ ?_) <;> simp <;> omega

/-- C6 witness: an account with 10 MINT and nothing staked stakes 4 and
unstakes 4 at time 3, ending back at 10 MINT liquid and 0 staked. -/
theorem c6_witness :
    ((stakeMintTokens demoConfig
        (boxPut zeroStore 1 { zeroPlayer with mint_balance := 10 }) 1 4 3).bind
      fun s1 => unstakeMintTokens demoConfig s1 1 4 3).map
        (fun s2 => ((s2 1).mint_balance, (s2 1).staked_mint)) =
      some ((boxPut zeroStore 1
        { zeroPlayer with mint_balance := 10 } 1).mint_balance, 0) :=
  c6_round_trip_unstaked demoConfig
    (boxPut zeroStore 1 { zeroPlayer with mint_balance := 10 }) 1 4 3
    (by decide) (by decide) (by decide)

/-- C9 counterexample: with MINT asa 7 and an empty account, a swap with
`token_in = token_out = 7` (an unsupported pair) and `amount_in = 1` fails
with the balance assertion, not with any `UnsupportedPair` abort — the
deduction runs before the pair is examined. -/
theorem c9_counterexample :
    simulateSwap demoConfig zeroStore 1 7 7 1 =
      Except.error SwapErr.insufficientBalance ∧
    isUnsupportedPairErr SwapErr.insufficientBalance = false := by
  exact ⟨rfl, rfl⟩

/-- C9 (amended): if `token_in` resolves to neither configured token, the
swap fails with the input-token abort (an `UnsupportedPair` kind) regardless
of balances; but if `token_in` resolves, an insufficient input balance fails
the swap with `InsufficientBalance` even when the pair is invalid — the
balance assertion precedes the output-pair check, which only runs after a
successful deduction. -/
theorem c9_error_precedence (cfg : GlobalConfig) (store : Store)
    (player : Address) (token_in token_out amount_in : Nat) :
    (token_in ≠ cfg.mint_token_asa → token_in ≠ cfg.spot_token_asa →
      simulateSwap cfg store player token_in token_out amount_in =
        Except.error SwapErr.invalidInputToken) ∧
    (token_in = cfg.mint_token_asa →
      (store player).mint_balance < amount_in →
      simulateSwap cfg store player token_in token_out amount_in =
        Except.error SwapErr.insufficientBalance) ∧
    (token_in = cfg.spot_token_asa → token_in ≠ cfg.mint_token_asa →
      (store player).spot_balance < amount_in →
      simulateSwap cfg store player token_in token_out amount_in =
        Except.error SwapErr.insufficientBalance) ∧
    (token_in = cfg.mint_token_asa → token_out = cfg.mint_token_asa →
      cfg.mint_token_asa ≠ cfg.spot_token_asa →
      (amount_in : Int) ≤ (store player).mint_balance →
      simulateSwap cfg store player token_in token_out amount_in =
        Except.error SwapErr.unsupportedPair) := by
  refine ⟨fun h1 h2 => ?_, fun h1 h2 => ?_, fun h1 h2 h3 => ?_,
    fun h1 h2 h3 h4 => ?_⟩
  · simp [simulateSwap, h1, h2, Except.bind]
  · subst h1
    simp [simulateSwap, not_le.mpr h2, Except.bind]
  · subst h1
    simp [simulateSwap, h2, not_le.mpr h3, Except.bind]
  · subst h1
    subst h2
    simp [simulateSwap, h4, h3, Except.bind, Except.map]

/-- One public balance-changing operation with its arguments, as enumerated
by the claim: deposit native, deposit token, withdraw native, stake, unstake,
swap, resolve_game, award achievement. -/
inductive Op where
  | depositAlgoOp (sender : Address) (amount : Nat)
  | depositAsaOp (sender : Address) (tokenId amount : Nat)
  | withdrawAlgoOp (sender : Address) (amount : Nat)
  | stakeOp (sender : Address) (amount now : Nat)
  | unstakeOp (sender : Address) (amount now : Nat)
  | swapOp (sender : Address) (token_in token_out amount_in : Nat)
      (use_tinyman : Bool)
  | resolveGameOp (sender winner loser : Address) (prize : Nat)
  | awardOp (sender player : Address)

/-- Application of one public operation to the global state and the box
store; `none` is a failed (rolled back) transaction. -/
def applyOp (cfg : GlobalConfig) (store : Store) :
    Op → Option (GlobalConfig × Store)
  | Op.depositAlgoOp s a => (depositAlgo store s a).map fun st => (cfg, st)
  | Op.depositAsaOp s t a => (depositAsa cfg store s t a).map fun st => (cfg, st)
  | Op.withdrawAlgoOp s a => (withdrawAlgo store s a).map fun st => (cfg, st)
  | Op.stakeOp s a n => (stakeMintTokens cfg store s a n).map fun st => (cfg, st)
  | Op.unstakeOp s a n =>
      (unstakeMintTokens cfg store s a n).map fun st => (cfg, st)
  | Op.swapOp s ti tout a ut =>
      (swapTokens cfg store s ti tout a ut).map fun st => (cfg, st)
  | Op.resolveGameOp s w l p =>
      (resolveGame cfg store s w l p).map fun o => (o.cfg, o.store)
  | Op.awardOp s p => (awardAchievementNft cfg store s p).map fun st => (cfg, st)

/-- One successful public operation takes ledger state `x` to `y`. -/
def Steps (x y : GlobalConfig × Store) : Prop :=
  ∃ op, applyOp x.1 x.2 op = some y

/-- Reachability by any finite sequence of successful public operations. -/
def Reachable : GlobalConfig × Store → GlobalConfig × Store → Prop :=
  Relation.ReflTransGen Steps

/-- Every balance field of one player record is non-negative. -/
def PlayerNonneg (st : PlayerState) : Prop :=
  0 ≤ st.algo_balance ∧ 0 ≤ st.mint_balance ∧ 0 ≤ st.spot_balance ∧
    0 ≤ st.staked_mint ∧ 0 ≤ st.staked_spot ∧ 0 ≤ st.nfts_owned

/-- Every balance field of the whole ledger state — the three treasury
accumulators and every player record — is non-negative. -/
def StateNonneg (x : GlobalConfig × Store) : Prop :=
  (0 ≤ x.1.game_fees_treasury_algo ∧ 0 ≤ x.1.game_fees_treasury_mint ∧
    0 ≤ x.1.game_fees_treasury_spot) ∧ ∀ a, PlayerNonneg (x.2 a)

lemma playerNonneg_boxPut {store : Store}
    (hstore : ∀ a, PlayerNonneg (store a)) {st : PlayerState}
    (hst : PlayerNonneg st) (b : Address) :
    ∀ a, PlayerNonneg (boxPut store b st a) := by
  intro a
  unfold boxPut
  split
  · exact hst
  · exact hstore a

/-- A successful accrual never decreases the MINT balance: the reward is a
product of non-negative factors divided by a positive constant. -/
lemma updateStakingRewards_ge (cfg : GlobalConfig) (now : Nat)
    (st : PlayerState) (m : Int) (hst : 0 ≤ st.staked_mint)
    (h : updateStakingRewards cfg now st = some m) :
    st.mint_balance ≤ m := by
  simp only [updateStakingRewards] at h
  split at h
  · exact Option.noConfusion h
  · split at h
    · injection h with h1
      have hdiv : 0 ≤ st.staked_mint * (cfg.stake_reward_rate : Int) *
          ((now - st.last_stake_timestamp : Nat) : Int) / 1000000 :=
        Int.ediv_nonneg
          (mul_nonneg (mul_nonneg hst (Int.natCast_nonneg _))
            (Int.natCast_nonneg _)) (by norm_num)
      rw [← h1]
      exact le_add_of_nonneg_right hdiv
    · injection h with h1
      exact h1.le

lemma nonneg_depositAlgo {store : Store} {s : Address} {a : Nat}
    {store1 : Store} (hstore : ∀ b, PlayerNonneg (store b))
    (h : depositAlgo store s a = some store1) :
    ∀ b, PlayerNonneg (store1 b) := by
  simp only [depositAlgo, Option.some.injEq] at h
  subst h
  refine playerNonneg_boxPut hstore ?_ s
  have hs := hstore s
  simp only [PlayerNonneg] at hs ⊢
  omega

lemma nonneg_depositAsa (cfg : GlobalConfig) {store : Store} {s : Address}
    {t a : Nat} {store1 : Store} (hstore : ∀ b, PlayerNonneg (store b))
    (h : depositAsa cfg store s t a = some store1) :
    ∀ b, PlayerNonneg (store1 b) := by
  have hs := hstore s
  simp only [depositAsa] at h
  split at h
  · injection h with h1
    subst h1
    refine playerNonneg_boxPut hstore ?_ s
    simp only [PlayerNonneg] at hs ⊢
    omega
  · split at h
    · injection h with h1
      subst h1
      refine playerNonneg_boxPut hstore ?_ s
      simp only [PlayerNonneg] at hs ⊢
      omega
    · exact Option.noConfusion h

lemma nonneg_withdrawAlgo {store : Store} {s : Address} {a : Nat}
    {store1 : Store} (hstore : ∀ b, PlayerNonneg (store b))
    (h : withdrawAlgo store s a = some store1) :
    ∀ b, PlayerNonneg (store1 b) := by
  have hs := hstore s
  simp only [withdrawAlgo] at h
  split at h
  · injection h with h1
    subst h1
    refine playerNonneg_boxPut hstore ?_ s
    rename_i hguard
    simp only [PlayerNonneg] at hs ⊢
    omega
  · exact Option.noConfusion h

lemma nonneg_stake (cfg : GlobalConfig) {store : Store} {s : Address}
    {a n : Nat} {store1 : Store} (hstore : ∀ b, PlayerNonneg (store b))
    (h : stakeMintTokens cfg store s a n = some store1) :
    ∀ b, PlayerNonneg (store1 b) := by
  have hs := hstore s
  simp only [stakeMintTokens] at h
  split at h
  · rename_i hguard
    obtain ⟨m, hm, rfl⟩ := Option.map_eq_some'.mp h
    have hle := updateStakingRewards_ge cfg n (store s) m hs.2.2.2.1 hm
    refine playerNonneg_boxPut hstore ?_ s
    simp only [PlayerNonneg] at hs ⊢
    omega
  · exact Option.noConfusion h

lemma nonneg_unstake (cfg : GlobalConfig) {store : Store} {s : Address}
    {a n : Nat} {store1 : Store} (hstore : ∀ b, PlayerNonneg (store b))
    (h : unstakeMintTokens cfg store s a n = some store1) :
    ∀ b, PlayerNonneg (store1 b) := by
  have hs := hstore s
  simp only [unstakeMintTokens] at h
  split at h
  · rename_i hguard
    obtain ⟨m, hm, rfl⟩ := Option.map_eq_some'.mp h
    have hle := updateStakingRewards_ge cfg n (store s) m hs.2.2.2.1 hm
    refine playerNonneg_boxPut hstore ?_ s
    simp only [PlayerNonneg] at hs ⊢
    omega
  · exact Option.noConfusion h

/-- The Tinyman path never succeeds: its final statement is an unconditional
revert. -/
lemma tinymanSwapLogic_eq_none (cfg : GlobalConfig) (store : Store)
    (player : Address) (token_in token_out amount_in : Nat) :
    tinymanSwapLogic cfg store player token_in token_out amount_in = none := by
  unfold tinymanSwapLogic
  cases tinymanDeducted cfg (store player) token_in amount_in <;> rfl

lemma except_bind_ok {ε α β : Type} {e : Except ε α} {f : α → Except ε β}
    {b : β} (h : e.bind f = Except.ok b) :
    ∃ a, e = Except.ok a ∧ f a = Except.ok b := by
  cases e with
  | error err => exact Except.noConfusion h
  | ok a => exact ⟨a, rfl, h⟩

lemma except_map_ok {ε α β : Type} {e : Except ε α} {f : α → β} {b : β}
    (h : e.map f = Except.ok b) : ∃ a, e = Except.ok a ∧ f a = b := by
  cases e with
  | error err => exact Except.noConfusion h
  | ok a =>
      refine ⟨a, rfl, ?_⟩
      have h1 : Except.ok (ε := ε) (f a) = Except.ok b := h
      exact (Except.ok.injEq _ _).mp h1

lemma nonneg_simulateSwap (cfg : GlobalConfig) {store : Store} {p : Address}
    {ti tout a : Nat} {store1 : Store}
    (hstore : ∀ b, PlayerNonneg (store b))
    (h : simulateSwap cfg store p ti tout a = Except.ok store1) :
    ∀ b, PlayerNonneg (store1 b) := by
  have hs := hstore p
  simp only [simulateSwap] at h
  obtain ⟨st1, hd, hc⟩ := except_bind_ok h
  obtain ⟨st2, hcred, hput⟩ := except_map_ok hc
  subst hput
  refine playerNonneg_boxPut hstore ?_ p
  have hfield : PlayerNonneg st1 := by
    split at hd
    · split at hd
      · injection hd with hd1
        subst hd1
        simp only [PlayerNonneg] at hs ⊢
        omega
      · exact Except.noConfusion hd
    · split at hd
      · split at hd
        · injection hd with hd1
          subst hd1
          simp only [PlayerNonneg] at hs ⊢
          omega
        · exact Except.noConfusion hd
      · exact Except.noConfusion hd
  clear hd hc h hs
  split at hcred
  · split at hcred
    · split at hcred
      · injection hcred with hc1
        subst hc1
        have hk : (0 : Int) ≤
            ((a * cfg.spot_price_algo / cfg.mint_price_algo : Nat) : Int) :=
          Int.natCast_nonneg _
        simp only [PlayerNonneg] at hfield ⊢
        omega
      · exact Except.noConfusion hcred
    · exact Except.noConfusion hcred
  · split at hcred
    · split at hcred
      · split at hcred
        · injection hcred with hc1
          subst hc1
          have hk : (0 : Int) ≤
              ((a * cfg.mint_price_algo / cfg.spot_price_algo : Nat) : Int) :=
            Int.natCast_nonneg _
          simp only [PlayerNonneg] at hfield ⊢
          omega
        · exact Except.noConfusion hcred
      · exact Except.noConfusion hcred
    · exact Except.noConfusion hcred

lemma nonneg_resolveGame {cfg : GlobalConfig} {store : Store}
    {s w l : Address} {p : Nat} {o : ResolveOutcome}
    (hT : 0 ≤ cfg.game_fees_treasury_algo ∧ 0 ≤ cfg.game_fees_treasury_mint ∧
      0 ≤ cfg.game_fees_treasury_spot)
    (hstore : ∀ b, PlayerNonneg (store b))
    (h : resolveGame cfg store s w l p = some o) :
    (0 ≤ o.cfg.game_fees_treasury_algo ∧ 0 ≤ o.cfg.game_fees_treasury_mint ∧
      0 ≤ o.cfg.game_fees_treasury_spot) ∧
      ∀ b, PlayerNonneg (o.store b) := by
  have hw := hstore w
  simp only [resolveGame] at h
  split at h
  · split at h
    · split at h
      · injection h with h1
        subst h1
        constructor
        · have hk : (0 : Int) ≤ ((p / 10 : Nat) : Int) := Int.natCast_nonneg _
          simp only []
          omega
        · refine playerNonneg_boxPut hstore ?_ w
          have hk : (0 : Int) ≤
              ((p * 1000 / cfg.spot_price_algo : Nat) : Int) :=
            Int.natCast_nonneg _
          simp only [PlayerNonneg] at hw ⊢
          omega
      · exact Option.noConfusion h
    · exact Option.noConfusion h
  · exact Option.noConfusion h

lemma nonneg_award (cfg : GlobalConfig) {store : Store} {s p : Address}
    {store1 : Store} (hstore : ∀ b, PlayerNonneg (store b))
    (h : awardAchievementNft cfg store s p = some store1) :
    ∀ b, PlayerNonneg (store1 b) := by
  have hp := hstore p
  simp only [awardAchievementNft] at h
  split at h
  · injection h with h1
    subst h1
    refine playerNonneg_boxPut hstore ?_ p
    simp only [PlayerNonneg] at hp ⊢
    omega
  · exact Option.noConfusion h

/-- Every successful public operation preserves non-negativity of all
balance fields. -/
lemma applyOp_nonneg {x y : GlobalConfig × Store} (hx : StateNonneg x)
    (op : Op) (h : applyOp x.1 x.2 op = some y) : StateNonneg y := by
  obtain ⟨cfg, store⟩ := x
  obtain ⟨hT, hstore⟩ := hx
  cases op with
  | depositAlgoOp s a =>
      simp only [applyOp] at h
      obtain ⟨st1, h1, rfl⟩ := Option.map_eq_some'.mp h
      exact ⟨hT, nonneg_depositAlgo hstore h1⟩
  | depositAsaOp s t a =>
      simp only [applyOp] at h
      obtain ⟨st1, h1, rfl⟩ := Option.map_eq_some'.mp h
      exact ⟨hT, nonneg_depositAsa cfg hstore h1⟩
  | withdrawAlgoOp s a =>
      simp only [applyOp] at h
      obtain ⟨st1, h1, rfl⟩ := Option.map_eq_some'.mp h
      exact ⟨hT, nonneg_withdrawAlgo hstore h1⟩
  | stakeOp s a n =>
      simp only [applyOp] at h
      obtain ⟨st1, h1, rfl⟩ := Option.map_eq_some'.mp h
      exact ⟨hT, nonneg_stake cfg hstore h1⟩
  | unstakeOp s a n =>
      simp only [applyOp] at h
      obtain ⟨st1, h1, rfl⟩ := Option.map_eq_some'.mp h
      exact ⟨hT, nonneg_unstake cfg hstore h1⟩
  | swapOp s ti tout a ut =>
      simp only [applyOp] at h
      obtain ⟨st1, h1, rfl⟩ := Option.map_eq_some'.mp h
      cases ut with
      | true =>
          rw [swapTokens, if_pos rfl, tinymanSwapLogic_eq_none] at h1
          exact Option.noConfusion h1
      | false =>
          rw [swapTokens] at h1
          simp only [Bool.false_eq_true, if_false] at h1
          have hok : simulateSwap cfg store s ti tout a = Except.ok st1 := by
            cases hcase : simulateSwap cfg store s ti tout a with
            | error e =>
                rw [hcase] at h1
                exact Option.noConfusion h1
            | ok v =>
                rw [hcase] at h1
                simp only [Except.toOption] at h1
                injection h1 with h2
                rw [h2]
          exact ⟨hT, nonneg_simulateSwap cfg hstore hok⟩
  | resolveGameOp s w l p =>
      simp only [applyOp] at h
      obtain ⟨o, h1, rfl⟩ := Option.map_eq_some'.mp h
      exact nonneg_resolveGame hT hstore h1
  | awardOp s p =>
      simp only [applyOp] at h
      obtain ⟨st1, h1, rfl⟩ := Option.map_eq_some'.mp h
      exact ⟨hT, nonneg_award cfg hstore h1⟩

/-- C3: from the all-zero default state (all player records zero, treasury
accumulators zero), any sequence of successful public operations keeps every
balance field — native/algo, MINT, SPOT, both staked amounts, the NFT
counter, and the three treasury accumulators — non-negative; every
subtraction is guarded by a sufficiency assertion. -/
theorem c3_balances_nonneg (cfg0 : GlobalConfig) (x : GlobalConfig × Store)
    (h0 : cfg0.game_fees_treasury_algo = 0 ∧
      cfg0.game_fees_treasury_mint = 0 ∧ cfg0.game_fees_treasury_spot = 0)
    (hr : Reachable (cfg0, zeroStore) x) : StateNonneg x := by
  have hinit : StateNonneg (cfg0, zeroStore) :=
    ⟨⟨le_of_eq h0.1.symm, le_of_eq h0.2.1.symm, le_of_eq h0.2.2.symm⟩,
      fun _ => (⟨le_refl 0, le_refl 0, le_refl 0, le_refl 0, le_refl 0,
        le_refl 0⟩ : PlayerNonneg zeroPlayer)⟩
  induction hr with
  | refl => exact hinit
  | tail hsteps hstep ih =>
      obtain ⟨op, hop⟩ := hstep
      exact applyOp_nonneg ih op hop

/-- C3 witness: the invariant at the freshly created application after one
successful native deposit. -/
theorem c3_witness :
    StateNonneg (initialConfig,
      boxPut zeroStore 1
        { zeroStore 1 with
            algo_balance := (zeroStore 1).algo_balance + 5 }) :=
  c3_balances_nonneg initialConfig
    (initialConfig,
      boxPut zeroStore 1
        { zeroStore 1 with
            algo_balance := (zeroStore 1).algo_balance + 5 })
    ⟨rfl, rfl, rfl⟩
    (Relation.ReflTransGen.single ⟨Op.depositAlgoOp 1 5, rfl⟩)

/-- C9 amended witness: concrete instances of the three failure orders — an
unknown input token aborts with the input-token revert; a known input token
with an empty balance aborts with the balance assertion even for the invalid
pair 7→7; the same invalid pair with a sufficient balance aborts with the
unsupported-pair revert. -/
theorem c9_witness :
    simulateSwap demoConfig zeroStore 1 5 8 1 =
      Except.error SwapErr.invalidInputToken ∧
    simulateSwap demoConfig zeroStore 1 7 7 2 =
      Except.error SwapErr.insufficientBalance ∧
    simulateSwap demoConfig zeroStore 1 7 7 0 =
      Except.error SwapErr.unsupportedPair :=
  ⟨(c9_error_precedence demoConfig zeroStore 1 5 8 1).1
      (by decide) (by decide),
    (c9_error_precedence demoConfig zeroStore 1 7 7 2).2.1
      (by decide) (by decide),
    (c9_error_precedence demoConfig zeroStore 1 7 7 0).2.2.2
      (by decide) (by decide) (by decide) (by decide)⟩

end GameFi
